import Mathlib

/-!
Shallow embedding of the number-guessing game server (src/server.js):
the guess engine, the room data model, the socket-event handlers and the
timer callbacks, together with theorems checking the specification.

JS objects keyed by socket id are modelled as association lists
(`List (String × α)`) preserving insertion order, matching the iteration
order of `Object.keys` / `Object.values` / `Object.entries`.
-/

/-- JS string indexing: `s[i]` is a character, or undefined past the end. -/
def charAt : List Char → Nat → Option Char
  | [], _ => none
  | a :: _, 0 => some a
  | _ :: l, i + 1 => charAt l i

/-- `validateNumber`: a 4-character string of digits, all distinct
(the `new Set(digits)` size-4 check). -/
def validateNumber (num : String) : Bool :=
  num.data.length == 4 && num.data.all (fun c => c.isDigit) && num.data.dedup.length == 4

/-- The position loop of `checkGuess`: four fixed iterations comparing
`guessDigits[i] === secretDigits[i]` (JS `undefined === undefined` is true,
hence the comparison of `Option Char`). -/
def correctPositionCount (g s : List Char) : Nat :=
  (if charAt g 0 == charAt s 0 then 1 else 0) +
  (if charAt g 1 == charAt s 1 then 1 else 0) +
  (if charAt g 2 == charAt s 2 then 1 else 0) +
  (if charAt g 3 == charAt s 3 then 1 else 0)

/-- The value loop of `checkGuess`: over the distinct digits of the guess
(the keys of `guessCount`; iteration order does not affect the sum), add
`min(guessCount[d], secretCount[d])` when the secret contains the digit
(the truthiness test `if (secretCount[digit])`). -/
def correctNumberCount (g s : List Char) : Nat :=
  g.dedup.foldl
    (fun acc d => if s.count d ≠ 0 then acc + min (g.count d) (s.count d) else acc) 0

/-- `checkGuess(guess, secret)` returns `{correctPosition, correctNumber}`. -/
def checkGuess (guess secret : String) : Nat × Nat :=
  (correctPositionCount guess.data secret.data, correctNumberCount guess.data secret.data)

/-- Specification form: the number of positions where guess and secret agree. -/
def posMatches (g s : List Char) : Nat :=
  ((g.zip s).filter (fun p => p.1 == p.2)).length

/-- Specification form: total digit-value matches counted with multiplicity. -/
def minMatchSum (g s : List Char) : Nat :=
  Finset.sum g.toFinset (fun d => min (g.count d) (s.count d))

lemma exists_len_four {α : Type} : ∀ (l : List α), l.length = 4 → ∃ a b c d, l = [a, b, c, d]
  | [a, b, c, d], _ => ⟨a, b, c, d, rfl⟩
  | [], h => by simp at h
  | [a], h => by simp at h
  | [a, b], h => by simp at h
  | [a, b, c], h => by simp at h
  | a :: b :: c :: d :: e :: t, h => by
      exfalso
      simp only [List.length_cons] at h
      omega

lemma correctPositionCount_eq_posMatches (g s : List Char)
    (hg : g.length = 4) (hs : s.length = 4) :
    correctPositionCount g s = posMatches g s := by
  obtain ⟨a, b, c, d, rfl⟩ := exists_len_four g hg
  obtain ⟨e, f, u, v, rfl⟩ := exists_len_four s hs
  have c0 : charAt [a, b, c, d] 0 = some a := rfl
  have c1 : charAt [a, b, c, d] 1 = some b := rfl
  have c2 : charAt [a, b, c, d] 2 = some c := rfl
  have c3 : charAt [a, b, c, d] 3 = some d := rfl
  have d0 : charAt [e, f, u, v] 0 = some e := rfl
  have d1 : charAt [e, f, u, v] 1 = some f := rfl
  have d2 : charAt [e, f, u, v] 2 = some u := rfl
  have d3 : charAt [e, f, u, v] 3 = some v := rfl
  unfold correctPositionCount
  rw [c0, c1, c2, c3, d0, d1, d2, d3]
  by_cases h1 : a = e <;> by_cases h2 : b = f <;> by_cases h3 : c = u <;> by_cases h4 : d = v <;>
    simp [posMatches, List.filter_cons, h1, h2, h3, h4]

lemma foldl_min_count (g s : List Char) :
    ∀ (l : List Char) (acc : Nat),
      l.foldl (fun acc d => if s.count d ≠ 0 then acc + min (g.count d) (s.count d) else acc) acc
        = acc + (l.map (fun d => min (g.count d) (s.count d))).sum := by
  intro l
  induction l with
  | nil => intro acc; simp
  | cons d l ih =>
      intro acc
      rw [List.foldl_cons, List.map_cons, List.sum_cons, ih]
      by_cases hd : s.count d = 0
      · rw [if_neg (not_not_intro hd), hd]
        simp
      · rw [if_pos hd]
        omega

lemma dedup_toFinset_eq (g : List Char) : g.dedup.toFinset = g.toFinset := by
  ext d
  simp [List.mem_toFinset, List.mem_dedup]

lemma correctNumberCount_eq_minMatchSum (g s : List Char) :
    correctNumberCount g s = minMatchSum g s := by
  unfold correctNumberCount minMatchSum
  rw [foldl_min_count g s g.dedup 0, Nat.zero_add]
  rw [← List.sum_toFinset _ (List.nodup_dedup g), dedup_toFinset_eq]

lemma cons_inter_cons (a : Char) (u v : Multiset Char) :
    (a ::ₘ u) ∩ (a ::ₘ v) = a ::ₘ (u ∩ v) := by
  ext d
  simp only [Multiset.count_inter, Multiset.count_cons]
  split <;> omega

lemma inter_le_cons_cons (a b : Char) (u v : Multiset Char) :
    u ∩ v ≤ (a ::ₘ u) ∩ (b ::ₘ v) := by
  rw [Multiset.le_iff_count]
  intro d
  simp only [Multiset.count_inter, Multiset.count_cons]
  split <;> split <;> omega

lemma posMatches_le_card_inter :
    ∀ (g s : List Char),
      posMatches g s ≤ Multiset.card ((g : Multiset Char) ∩ (s : Multiset Char))
  | [], s => by simp [posMatches]
  | a :: g, [] => by simp [posMatches]
  | a :: g, b :: s => by
      have ih := posMatches_le_card_inter g s
      by_cases hab : a = b
      · subst hab
        rw [← Multiset.cons_coe, ← Multiset.cons_coe, cons_inter_cons, Multiset.card_cons]
        have hpm : posMatches (a :: g) (a :: s) = posMatches g s + 1 := by
          simp [posMatches, List.filter_cons]
        omega
      · have hpm : posMatches (a :: g) (b :: s) = posMatches g s := by
          simp [posMatches, List.filter_cons, hab]
        rw [hpm, ← Multiset.cons_coe, ← Multiset.cons_coe]
        exact le_trans ih (Multiset.card_le_card (inter_le_cons_cons a b _ _))

lemma card_inter_eq_minMatchSum (g s : List Char) :
    Multiset.card ((g : Multiset Char) ∩ (s : Multiset Char)) = minMatchSum g s := by
  unfold minMatchSum
  have hcount : ∀ d : Char,
      Multiset.count d ((g : Multiset Char) ∩ (s : Multiset Char))
        = min (g.count d) (s.count d) := by
    intro d
    rw [Multiset.count_inter, Multiset.coe_count, Multiset.coe_count]
  have hsub : ((g : Multiset Char) ∩ (s : Multiset Char)).toFinset ⊆ g.toFinset := by
    intro d hd
    rw [Multiset.mem_toFinset, Multiset.mem_inter] at hd
    rw [List.mem_toFinset, ← Multiset.mem_coe]
    exact hd.1
  have hzero : ∀ d ∈ g.toFinset,
      d ∉ ((g : Multiset Char) ∩ (s : Multiset Char)).toFinset →
      Multiset.count d ((g : Multiset Char) ∩ (s : Multiset Char)) = 0 := by
    intro d _ hd
    rw [Multiset.mem_toFinset] at hd
    exact Multiset.count_eq_zero.mpr hd
  calc Multiset.card ((g : Multiset Char) ∩ (s : Multiset Char))
      = Finset.sum ((g : Multiset Char) ∩ (s : Multiset Char)).toFinset
          (fun d => Multiset.count d ((g : Multiset Char) ∩ (s : Multiset Char))) :=
        (Multiset.toFinset_sum_count_eq _).symm
    _ = Finset.sum g.toFinset
          (fun d => Multiset.count d ((g : Multiset Char) ∩ (s : Multiset Char))) :=
        Finset.sum_subset hsub hzero
    _ = Finset.sum g.toFinset (fun d => min (g.count d) (s.count d)) :=
        Finset.sum_congr rfl (fun d _ => hcount d)

/-- Claim C7: for 4-character digit strings, `checkGuess` returns the count of
positions where guess and secret agree together with the multiplicity-respecting
count of shared digit values; `correctNumber ≥ correctPosition` always, and
`checkGuess "1234" "4321" = (0, 4)`.  `checkGuess` is a pure Lean function, so it
is deterministic and side-effect free by construction. -/
theorem C7_checkGuess_correct (guess secret : String)
    (hg : guess.data.length = 4) (hs : secret.data.length = 4)
    (hgd : guess.data.all Char.isDigit = true) (hsd : secret.data.all Char.isDigit = true) :
    (checkGuess guess secret).1 = posMatches guess.data secret.data ∧
    (checkGuess guess secret).2 = minMatchSum guess.data secret.data ∧
    (checkGuess guess secret).1 ≤ (checkGuess guess secret).2 ∧
    checkGuess "1234" "4321" = (0, 4) := by
  refine ⟨correctPositionCount_eq_posMatches _ _ hg hs,
    correctNumberCount_eq_minMatchSum _ _, ?_, by decide⟩
  calc (checkGuess guess secret).1
      = posMatches guess.data secret.data := correctPositionCount_eq_posMatches _ _ hg hs
    _ ≤ Multiset.card ((guess.data : Multiset Char) ∩ (secret.data : Multiset Char)) :=
        posMatches_le_card_inter _ _
    _ = minMatchSum guess.data secret.data := card_inter_eq_minMatchSum _ _
    _ = (checkGuess guess secret).2 := (correctNumberCount_eq_minMatchSum _ _).symm

/-- Witness for C7 at guess "1256" against secret "1234" (the spec's `{1,2}`
example). -/
theorem C7_checkGuess_correct_witness :
    (checkGuess "1256" "1234").1 = posMatches "1256".data "1234".data ∧
    (checkGuess "1256" "1234").2 = minMatchSum "1256".data "1234".data ∧
    (checkGuess "1256" "1234").1 ≤ (checkGuess "1256" "1234").2 ∧
    checkGuess "1234" "4321" = (0, 4) :=
  C7_checkGuess_correct "1256" "1234" (by decide) (by decide) (by decide) (by decide)

/-! ## Room data model -/

/-- One seat's PlayerState (`room.players[socketId]`). -/
structure Player where
  id : String
  playerNumber : Nat
  nickname : String
  ready : Bool
  connected : Bool
  tempDisconnected : Bool := false
  lastSeen : Nat := 0
  reconnectedAt : Option Nat := none
deriving DecidableEq

/-- One entry of `gameState.history`. -/
structure HistoryItem where
  player : Nat
  playerName : String
  guess : String
  result : Nat × Nat
  isWin : Bool
  timestamp : Nat
deriving DecidableEq

/-- `room.gameState`; absent JS keys (winner before the first win, startedAt
before the first start) are `none`. -/
structure GameState where
  started : Bool
  currentPlayer : Nat
  secrets : List (String × String)
  history : List HistoryItem
  winner : Option Nat := none
  winningGuess : Option String := none
  startedAt : Option Nat := none
deriving DecidableEq

/-- A room; `disconnectTimers` keeps the seat numbers that currently hold a
live 30-second expiry timer handle. -/
structure Room where
  code : String
  players : List (String × Player)
  gameState : GameState
  createdAt : Nat
  disconnectTimers : List Nat := []
deriving DecidableEq

/-- JS object read `m[k]` (undefined becomes `none`). -/
def objGet {α : Type} (m : List (String × α)) (k : String) : Option α :=
  (m.find? (fun p => p.1 == k)).map (fun p => p.2)

/-- JS object write `m[k] = v`: overwrite in place, or append a new key. -/
def objSet {α : Type} (m : List (String × α)) (k : String) (v : α) : List (String × α) :=
  if m.any (fun p => p.1 == k) then
    m.map (fun p => if p.1 == k then (k, v) else p)
  else
    m ++ [(k, v)]

/-- JS `delete m[k]`. -/
def objDelete {α : Type} (m : List (String × α)) (k : String) : List (String × α) :=
  m.filter (fun p => p.1 != k)

/-! ## SessionManager: disconnect / reconnect / expiry -/

/-- Successful `attemptReconnect` acknowledgment: the game state plus
`mySecret = room.gameState.secrets[socket.id]` looked up under the NEW
socket id. -/
structure ReconnectOk where
  gameState : GameState
  mySecret : Option String
deriving DecidableEq

/-- `handleReconnection(socket, roomCode, playerNumber)`: find the seat, rebind
the player entry to the new socket id, mark it connected, clear the seat's
expiry timer, and return the snapshot.  Room/seat lookup failure is `none`. -/
def handleReconnection (room : Room) (newSocketId : String) (playerNumber : Nat) (now : Nat) :
    Option (Room × ReconnectOk) :=
  match room.players.find? (fun p => p.2.playerNumber == playerNumber) with
  | none => none
  | some (oldSocketId, player) =>
    let player2 := { player with
      id := newSocketId, connected := true, tempDisconnected := false,
      lastSeen := now, reconnectedAt := some now }
    let players1 := objSet room.players newSocketId player2
    let players2 := if oldSocketId != newSocketId then objDelete players1 oldSocketId else players1
    let room2 := { room with
      players := players2,
      disconnectTimers := room.disconnectTimers.filter (fun n => n != playerNumber) }
    some (room2, { gameState := room2.gameState,
                   mySecret := objGet room2.gameState.secrets newSocketId })

/-- `handlePlayerDisconnect`: mark the seat disconnected and arm (overwrite)
its 30-second expiry timer. -/
def handlePlayerDisconnect (room : Room) (socketId : String) (now : Nat) : Room :=
  match objGet room.players socketId with
  | none => room
  | some player =>
    { room with
      players := room.players.map (fun p =>
        if p.1 == socketId then
          (p.1, { p.2 with connected := false, tempDisconnected := true, lastSeen := now })
        else p),
      disconnectTimers :=
        (room.disconnectTimers.filter (fun n => n != player.playerNumber))
          ++ [player.playerNumber] }

/-- The forfeit `gameEnd` broadcast emitted on expiry with one player left. -/
structure ForfeitEvent where
  winner : Nat
  winnerName : String
  winningGuess : String
  reason : String
  history : List HistoryItem
deriving DecidableEq

/-- `handlePlayerTimeout(roomCode, playerNumber)`: unconditionally remove every
player entry with that seat number (no re-check of connection state), delete
their secrets, then: zero players left deletes the room (`(none, none)`); one
player left broadcasts the forfeit `gameEnd`. -/
def handlePlayerTimeout (room : Room) (playerNumber : Nat) :
    Option Room × Option ForfeitEvent :=
  let removed := (room.players.filter (fun p => p.2.playerNumber == playerNumber)).map
    (fun p => p.1)
  let players2 := room.players.filter (fun p => p.2.playerNumber != playerNumber)
  let secrets2 := removed.foldl (fun acc sid => objDelete acc sid) room.gameState.secrets
  let room2 := { room with
    players := players2,
    gameState := { room.gameState with secrets := secrets2 },
    disconnectTimers := room.disconnectTimers.filter (fun n => n != playerNumber) }
  if players2.length == 0 then
    (none, none)
  else if players2.length == 1 then
    (some room2, players2.head?.map (fun p =>
      { winner := p.2.playerNumber, winnerName := p.2.nickname,
        winningGuess := "ชนะเนื่องจากอีกฝ่ายหลุดการเชื่อมต่อ",
        reason := "opponent_timeout", history := room.gameState.history }))
  else
    (some room2, none)

/-- The Node event loop's guarantee for `setTimeout`/`clearTimeout`: the
30-second expiry callback runs only while its handle is still in the room's
timer table; a cleared timeout never fires. -/
def expiryFire (room : Room) (playerNumber : Nat) :
    Option (Option Room × Option ForfeitEvent) :=
  if playerNumber ∈ room.disconnectTimers then some (handlePlayerTimeout room playerNumber)
  else none

/-! ## Room actions: submitSecret / gameStart / makeGuess / resetGame / leaveRoom -/

/-- Acknowledgment of `submitSecret` (alreadyReady is a `success:true` reply;
`accepted b` records whether the 500 ms game-start timer was scheduled). -/
inductive SubmitOutcome where
  | playerNotFound
  | alreadyReady
  | invalidSecret
  | accepted (startScheduled : Bool)
deriving DecidableEq

/-- The `submitSecret` handler body for an existing room. -/
def submitSecret (room : Room) (socketId : String) (secret : String) : Room × SubmitOutcome :=
  match objGet room.players socketId with
  | none => (room, .playerNotFound)
  | some player =>
    if player.ready then (room, .alreadyReady)
    else if !validateNumber secret then (room, .invalidSecret)
    else
      let players2 := room.players.map (fun p =>
        if p.1 == socketId then (p.1, { p.2 with ready := true }) else p)
      let room2 := { room with
        gameState := { room.gameState with
          secrets := objSet room.gameState.secrets socketId secret },
        players := players2 }
      (room2, .accepted (players2.all (fun p => p.2.ready) && players2.length == 2))

/-- Body of the 500 ms start-debounce `setTimeout` closure: it sets
`started := true`, `currentPlayer := 1`, clears the history and stamps
`startedAt` — with no re-check of the room's occupancy or readiness. -/
def startTimerFire (room : Room) (now : Nat) : Room :=
  { room with gameState := { room.gameState with
      started := true, currentPlayer := 1, history := [], startedAt := some now } }

/-- Failure replies of `makeGuess`: `notStarted` and `notYourTurn` are the
StateErrors, `invalidNumber` the ValidationError, `noOpponentSecret` the
NotFoundError. -/
inductive GuessFail where
  | notStarted
  | invalidNumber
  | playerNotFound
  | notYourTurn
  | noOpponentSecret
deriving DecidableEq

/-- Broadcast emitted by a successful guess. -/
inductive GuessEvent where
  | turnChange (currentPlayer : Nat) (lastGuess : HistoryItem) (history : List HistoryItem)
  | gameEnd (winner : Nat) (winnerName : String) (winningGuess : String)
      (history : List HistoryItem)
deriving DecidableEq

/-- The `makeGuess` handler: checks in source order (started, guess shape,
player, turn, opponent secret), then appends the history record and either
finishes the game or toggles the turn.  Failures return the room unchanged. -/
def makeGuess (room : Room) (socketId : String) (guess : String) (now : Nat) :
    Room × Except GuessFail ((Nat × Nat) × Bool × GuessEvent) :=
  if !room.gameState.started then (room, .error .notStarted)
  else if !validateNumber guess then (room, .error .invalidNumber)
  else
    match objGet room.players socketId with
    | none => (room, .error .playerNotFound)
    | some player =>
      if player.playerNumber != room.gameState.currentPlayer then
        (room, .error .notYourTurn)
      else
        match ((room.players.map (fun p => p.1)).find? (fun sid => sid != socketId)).bind
            (fun sid => objGet room.gameState.secrets sid) with
        | none => (room, .error .noOpponentSecret)
        | some opponentSecret =>
          let result := checkGuess guess opponentSecret
          let historyItem : HistoryItem := {
            player := player.playerNumber, playerName := player.nickname,
            guess := guess, result := result,
            isWin := result.1 == 4, timestamp := now }
          let gs1 := { room.gameState with
            history := room.gameState.history ++ [historyItem] }
          if result.1 == 4 then
            let gs2 := { gs1 with
              winner := some player.playerNumber, winningGuess := some guess }
            ({ room with gameState := gs2 },
             .ok (result, true,
               .gameEnd player.playerNumber player.nickname guess gs2.history))
          else
            let gs2 := { gs1 with
              currentPlayer := if gs1.currentPlayer == 1 then 2 else 1 }
            ({ room with gameState := gs2 },
             .ok (result, false,
               .turnChange gs2.currentPlayer historyItem gs2.history))

/-- The `resetGame` handler: a fresh lobby gameState, every seat unreadied,
every disconnect timer cleared. -/
def resetGame (room : Room) : Room :=
  { room with
    gameState := { started := false, currentPlayer := 1, secrets := [], history := [],
                   winner := none, winningGuess := none, startedAt := none },
    players := room.players.map (fun p => (p.1, { p.2 with ready := false })),
    disconnectTimers := [] }

/-- The `leaveRoom` handler: drop the seat, its secret and its timer; in the
lobby also reset the gameState and unready everyone; an emptied room is
destroyed (`none`). -/
def leaveRoom (room : Room) (socketId : String) : Option Room :=
  match objGet room.players socketId with
  | none => some room
  | some player =>
    let players1 := objDelete room.players socketId
    let gs1 := { room.gameState with secrets := objDelete room.gameState.secrets socketId }
    let step :=
      if !room.gameState.started then
        (players1.map (fun p => (p.1, { p.2 with ready := false })),
         ({ started := false, currentPlayer := 1, secrets := [], history := [],
            winner := none, winningGuess := none, startedAt := none } : GameState))
      else (players1, gs1)
    if step.1.length == 0 then none
    else some { room with
      players := step.1, gameState := step.2,
      disconnectTimers := room.disconnectTimers.filter (fun n => n != player.playerNumber) }

/-! ## RoomRegistry sweep -/

/-- The 10-minute sweep's deletion predicate for one room. -/
def shouldDelete (room : Room) (now : Nat) : Bool :=
  let roomAge := now - room.createdAt
  let hasActivePlayers := room.players.any (fun p => p.2.connected)
  let playerCount := room.players.length
  (decide (roomAge > 4 * 60 * 60 * 1000) && playerCount == 0) ||
  (!hasActivePlayers && playerCount == 0) ||
  decide (roomAge > 8 * 60 * 60 * 1000)

/-! ## Claim theorems -/

def sweepRoomC2 : Room :=
  { code := "SWEEPA",
    players := [("s1", { id := "s1", playerNumber := 1, nickname := "ผู้เล่น 1",
                         ready := true, connected := true })],
    gameState := { started := true, currentPlayer := 1,
                   secrets := [("s1", "1234")], history := [] },
    createdAt := 0 }

/-- Claim C2 counterexample: a room holding one connected player and aged nine
hours satisfies the sweep's deletion predicate (the third disjunct,
`age > 8h`, is unconditional), so the sweep does delete a room with a
connected player once it is old enough. -/
theorem C2_counterexample :
    sweepRoomC2.players.any (fun p => p.2.connected) = true ∧
    sweepRoomC2.players.length = 1 ∧
    shouldDelete sweepRoomC2 (9 * 60 * 60 * 1000) = true := by
  refine ⟨rfl, rfl, rfl⟩

/-- Claim C2 (amended): the sweep deletes any zero-player room regardless of
age; a room that still has a player (connected or not) survives the sweep if
and only if its age is at most 8 hours — past 8 hours every room is deleted
unconditionally, connected players included. -/
theorem C2_sweep_spec (room : Room) (now : Nat) :
    (room.players.length = 0 → shouldDelete room now = true) ∧
    (room.players.length ≠ 0 → ¬(now - room.createdAt > 8 * 60 * 60 * 1000) →
      shouldDelete room now = false) ∧
    (now - room.createdAt > 8 * 60 * 60 * 1000 → shouldDelete room now = true) := by
  refine ⟨fun h => ?_, fun h1 h2 => ?_, fun h => ?_⟩
  · have hnil : room.players = [] := List.length_eq_zero.mp h
    simp [shouldDelete, hnil]
  · have hb : (room.players.length == 0) = false := by
      simp only [beq_eq_false_iff_ne, ne_eq]
      exact h1
    have hd : decide (now - room.createdAt > 8 * 60 * 60 * 1000) = false :=
      decide_eq_false h2
    simp [shouldDelete, hb, hd]
  · have hd : decide (now - room.createdAt > 8 * 60 * 60 * 1000) = true :=
      decide_eq_true h
    simp [shouldDelete, hd]

def emptyRoomC2 : Room :=
  { code := "SWEEPB", players := [],
    gameState := { started := false, currentPlayer := 1, secrets := [], history := [] },
    createdAt := 0 }

/-- Witness for C2 (amended): a fresh empty room is swept; a two-hour-old room
with a player is kept. -/
theorem C2_sweep_spec_witness :
    shouldDelete emptyRoomC2 100 = true ∧
    shouldDelete sweepRoomC2 (2 * 60 * 60 * 1000) = false :=
  ⟨(C2_sweep_spec emptyRoomC2 100).1 rfl,
   (C2_sweep_spec sweepRoomC2 (2 * 60 * 60 * 1000)).2.1 (by decide) (by decide)⟩

lemma objGet_map_values {α : Type} (g : α → α) (l : List (String × α)) (k : String) :
    objGet (l.map (fun p => (p.1, g p.2))) k = (objGet l k).map g := by
  induction l with
  | nil => rfl
  | cons q l ih =>
      by_cases h : q.1 == k
      · simp [objGet, List.find?_cons, h]
      · simp only [objGet, List.map_cons, List.find?_cons, h] at ih ⊢
        exact ih

/-- Claim C10: `resetGame` installs the initial lobby gameState (not started,
currentPlayer 1, no secrets, no history, no winner), clears every ready flag
and cancels all disconnect timers; every seat survives with its key and every
other player field (id, playerNumber, nickname, connected, tempDisconnected,
lastSeen, reconnectedAt) intact, and the room's code and creation time are
untouched. -/
theorem C10_resetGame_frame (room : Room) :
    (resetGame room).gameState =
      { started := false, currentPlayer := 1, secrets := [], history := [],
        winner := none, winningGuess := none, startedAt := none } ∧
    (resetGame room).disconnectTimers = [] ∧
    (resetGame room).players.map (fun p => p.1) = room.players.map (fun p => p.1) ∧
    (∀ sid p, objGet room.players sid = some p →
       objGet (resetGame room).players sid = some { p with ready := false }) ∧
    (resetGame room).code = room.code ∧
    (resetGame room).createdAt = room.createdAt := by
  refine ⟨rfl, rfl, ?_, ?_, rfl, rfl⟩
  · simp [resetGame]
  · intro sid p hp
    have h := objGet_map_values (fun q : Player => { q with ready := false }) room.players sid
    rw [hp] at h
    exact h

def roomC10 : Room :=
  { code := "RESETA",
    players := [
      ("x1", { id := "x1", playerNumber := 1, nickname := "ผู้เล่น 1",
               ready := true, connected := true, lastSeen := 11 }),
      ("x2", { id := "x2", playerNumber := 2, nickname := "ผู้เล่น 2",
               ready := true, connected := false, tempDisconnected := true, lastSeen := 22 })],
    gameState := { started := true, currentPlayer := 2,
                   secrets := [("x1", "1234"), ("x2", "5678")],
                   history := [], winner := some 1, winningGuess := some "5678",
                   startedAt := some 3 },
    createdAt := 5, disconnectTimers := [2] }

/-- Witness for C10 on a concrete mid-game room. -/
theorem C10_resetGame_frame_witness :
    (resetGame roomC10).gameState =
      { started := false, currentPlayer := 1, secrets := [], history := [],
        winner := none, winningGuess := none, startedAt := none } ∧
    (resetGame roomC10).disconnectTimers = [] ∧
    objGet (resetGame roomC10).players "x2" =
      some { id := "x2", playerNumber := 2, nickname := "ผู้เล่น 2",
             ready := false, connected := false, tempDisconnected := true, lastSeen := 22 } :=
  ⟨(C10_resetGame_frame roomC10).1,
   (C10_resetGame_frame roomC10).2.1,
   (C10_resetGame_frame roomC10).2.2.2.1 "x2"
     { id := "x2", playerNumber := 2, nickname := "ผู้เล่น 2",
       ready := true, connected := false, tempDisconnected := true, lastSeen := 22 } rfl⟩

/-- Claim C9: when the caller's seat is already ready, `submitSecret` replies
with the success acknowledgment and changes nothing — whatever the new secret
looks like; the 4-distinct-digit validation only runs for a seat that is not
yet ready (and then a malformed secret is rejected, again without mutation). -/
theorem C9_submitSecret_already_ready (room : Room) (sid secret : String) (p : Player)
    (hp : objGet room.players sid = some p) :
    (p.ready = true → submitSecret room sid secret = (room, .alreadyReady)) ∧
    (p.ready = false → validateNumber secret = false →
       submitSecret room sid secret = (room, .invalidSecret)) := by
  constructor
  · intro h
    simp [submitSecret, hp, h]
  · intro h hv
    simp [submitSecret, hp, h, hv]

def roomC9 : Room :=
  { code := "READY1",
    players := [
      ("r1", { id := "r1", playerNumber := 1, nickname := "ผู้เล่น 1",
               ready := true, connected := true }),
      ("r2", { id := "r2", playerNumber := 2, nickname := "ผู้เล่น 2",
               ready := false, connected := true })],
    gameState := { started := false, currentPlayer := 1,
                   secrets := [("r1", "1234")], history := [] },
    createdAt := 0 }

/-- Witness for C9: the ready seat resubmitting the malformed "1123" still gets
the success reply and no mutation; the unready seat submitting "1123" is
rejected by validation. -/
theorem C9_submitSecret_already_ready_witness :
    submitSecret roomC9 "r1" "1123" = (roomC9, .alreadyReady) ∧
    submitSecret roomC9 "r2" "1123" = (roomC9, .invalidSecret) :=
  ⟨(C9_submitSecret_already_ready roomC9 "r1" "1123"
      { id := "r1", playerNumber := 1, nickname := "ผู้เล่น 1",
        ready := true, connected := true } rfl).1 rfl,
   (C9_submitSecret_already_ready roomC9 "r2" "1123"
      { id := "r2", playerNumber := 2, nickname := "ผู้เล่น 2",
        ready := false, connected := true } rfl).2 rfl (by decide)⟩

def roomC1 : Room :=
  { code := "ROOMC1",
    players := [
      ("s1", { id := "s1", playerNumber := 1, nickname := "ผู้เล่น 1", ready := true,
               connected := false, tempDisconnected := true, lastSeen := 10 }),
      ("s2", { id := "s2", playerNumber := 2, nickname := "ผู้เล่น 2", ready := true,
               connected := true })],
    gameState := { started := true, currentPlayer := 2,
                   secrets := [("s1", "1234"), ("s2", "5678")], history := [] },
    createdAt := 0, disconnectTimers := [1] }

/-- Claim C1 is violated by the code: seat 1 submitted secret "1234" while bound
to socket "s1"; after it reconnects on the fresh socket "s3",
`handleReconnection` rebinds the player entry but never migrates the
socket-id-keyed secrets table, so the snapshot's `mySecret` is undefined and
the opponent's next (otherwise fully valid) `makeGuess` fails with the
opponent-secret NotFoundError. -/
theorem C1_reconnect_loses_secret :
    objGet roomC1.gameState.secrets "s1" = some "1234" ∧
    (handleReconnection roomC1 "s3" 1 20).map (fun x => x.2.mySecret) = some none ∧
    (handleReconnection roomC1 "s3" 1 20).map
        (fun x => (makeGuess x.1 "s2" "0123" 30).2)
      = some (.error .noOpponentSecret) := by
  refine ⟨rfl, rfl, rfl⟩

def roomC3 : Room :=
  { code := "RACE01",
    players := [
      ("n1", { id := "n1", playerNumber := 1, nickname := "ผู้เล่น 1", ready := true,
               connected := true, tempDisconnected := false, reconnectedAt := some 20 }),
      ("s2", { id := "s2", playerNumber := 2, nickname := "ผู้เล่น 2", ready := true,
               connected := true })],
    gameState := { started := true, currentPlayer := 1,
                   secrets := [("n1", "1234"), ("s2", "5678")], history := [] },
    createdAt := 0 }

/-- Claim C3 counterexample: the expiry callback performs no re-check that the
seat is still pending — invoked on a room whose seat 1 has already reconnected
(connected = true, tempDisconnected = false), it still removes that player and
its secret and even declares seat 2 the forfeit winner. -/
theorem C3_counterexample :
    (objGet roomC3.players "n1").map (fun p => (p.connected, p.tempDisconnected))
      = some (true, false) ∧
    (handlePlayerTimeout roomC3 1).1.map
        (fun r => (r.players.map (fun p => p.1), r.gameState.secrets))
      = some (["s2"], [("s2", "5678")]) ∧
    (handlePlayerTimeout roomC3 1).2.map (fun e => (e.winner, e.reason))
      = some (2, "opponent_timeout") := by
  refine ⟨rfl, rfl, rfl⟩

/-- Claim C3 (amended): race safety comes from cancellation rather than a
re-check inside the callback: a successful `handleReconnection` removes the
seat's expiry-timer handle from the room's timer table, so under the
single-threaded event loop the expiry can no longer fire for that seat once
the reconnect has completed; the callback body itself, if it did run, would
remove the seat unconditionally. -/
theorem C3_reconnect_cancels_expiry (room : Room) (sid : String) (pn now : Nat)
    (room2 : Room) (ok : ReconnectOk)
    (h : handleReconnection room sid pn now = some (room2, ok)) :
    pn ∉ room2.disconnectTimers ∧ expiryFire room2 pn = none := by
  have htimers : room2.disconnectTimers
      = room.disconnectTimers.filter (fun n => n != pn) := by
    unfold handleReconnection at h
    cases hf : room.players.find? (fun p => p.2.playerNumber == pn) with
    | none => rw [hf] at h; exact absurd h (by simp)
    | some q =>
        rw [hf] at h
        obtain ⟨oldSid, player⟩ := q
        simp only [Option.some.injEq, Prod.mk.injEq] at h
        rw [← h.1]
    
  have hmem : pn ∉ room2.disconnectTimers := by
    rw [htimers]
    intro hx
    have := List.of_mem_filter hx
    simp at this
  exact ⟨hmem, by simp [expiryFire, hmem]⟩

def roomC3w : Room :=
  { code := "RACE02",
    players := [
      ("s1", { id := "s1", playerNumber := 1, nickname := "ผู้เล่น 1", ready := true,
               connected := true }),
      ("s2", { id := "s2", playerNumber := 2, nickname := "ผู้เล่น 2", ready := true,
               connected := true })],
    gameState := { started := true, currentPlayer := 1,
                   secrets := [("s1", "1234"), ("s2", "5678")], history := [] },
    createdAt := 0 }

def roomC3w2 : Room := handlePlayerDisconnect roomC3w "s1" 5

def reconC3w : Room × ReconnectOk :=
  (handleReconnection roomC3w2 "n1" 1 12).getD
    (roomC3w2, { gameState := roomC3w2.gameState, mySecret := none })

/-- Witness for C3 (amended): seat 1 disconnects (arming its expiry timer) and
reconnects on socket "n1"; afterwards its timer handle is gone and the expiry
cannot fire. -/
theorem C3_reconnect_cancels_expiry_witness :
    1 ∉ reconC3w.1.disconnectTimers ∧ expiryFire reconC3w.1 1 = none :=
  C3_reconnect_cancels_expiry roomC3w2 "n1" 1 12 reconC3w.1 reconC3w.2 rfl

def roomC4 : Room :=
  { code := "ROOMC4",
    players := [
      ("a1", { id := "a1", playerNumber := 1, nickname := "ผู้เล่น 1",
               ready := false, connected := true }),
      ("a2", { id := "a2", playerNumber := 2, nickname := "ผู้เล่น 2",
               ready := false, connected := true })],
    gameState := { started := false, currentPlayer := 1, secrets := [], history := [] },
    createdAt := 0 }

def roomC4a : Room := (submitSecret roomC4 "a1" "1234").1

def roomC4b : Room := (submitSecret roomC4a "a2" "5678").1

/-- Claim C4 is violated by the code: once both seats are ready the 500 ms
start timer is scheduled, and its callback re-validates nothing — if seat 2
leaves the room during the debounce (which resets the lobby and unreadies the
remaining seat, but does not cancel the unstored start timer), the callback
still fires and sets `started := true` in a one-player room whose only seat
is not ready. -/
theorem C4_start_debounce_no_revalidation :
    (submitSecret roomC4a "a2" "5678").2 = .accepted true ∧
    (leaveRoom roomC4b "a2").map (fun r =>
        ((startTimerFire r 100).gameState.started,
         (startTimerFire r 100).players.length,
         (startTimerFire r 100).players.all (fun p => p.2.ready)))
      = some (true, 1, false) := by
  refine ⟨rfl, rfl⟩

/-- Claim C5: when the expiry callback runs for a seat and, after removing that
seat, no player remains, the room is destroyed; when exactly one (connected)
seat remains, the callback reports a forfeit `gameEnd` carrying reason
"opponent_timeout", the remaining seat as winner and the accumulated history. -/
theorem C5_timeout_forfeit (room : Room) (pn : Nat) :
    (room.players.filter (fun p => p.2.playerNumber != pn) = [] →
       handlePlayerTimeout room pn = (none, none)) ∧
    (∀ sid q, room.players.filter (fun p => p.2.playerNumber != pn) = [(sid, q)] →
       q.connected = true →
       (handlePlayerTimeout room pn).1.isSome = true ∧
       (handlePlayerTimeout room pn).2 =
         some { winner := q.playerNumber, winnerName := q.nickname,
                winningGuess := "ชนะเนื่องจากอีกฝ่ายหลุดการเชื่อมต่อ",
                reason := "opponent_timeout", history := room.gameState.history }) := by
  constructor
  · intro h
    simp [handlePlayerTimeout, h]
  · intro sid q h hq
    simp [handlePlayerTimeout, h]

def playerC5t2 : Player :=
  { id := "t2", playerNumber := 2, nickname := "ผู้เล่น 2", ready := true, connected := true }

def roomC5 : Room :=
  { code := "ROOMC5",
    players := [
      ("t1", { id := "t1", playerNumber := 1, nickname := "ผู้เล่น 1", ready := true,
               connected := false, tempDisconnected := true }),
      ("t2", playerC5t2)],
    gameState := { started := true, currentPlayer := 2,
                   secrets := [("t1", "1234"), ("t2", "5678")],
                   history := [{ player := 1, playerName := "ผู้เล่น 1", guess := "5670",
                                 result := (3, 3), isWin := false, timestamp := 50 }] },
    createdAt := 0, disconnectTimers := [1] }

/-- Witness for C5: seat 1 times out of `roomC5`; seat 2 (connected) wins by
forfeit with the one-record history. -/
theorem C5_timeout_forfeit_witness :
    (handlePlayerTimeout roomC5 1).1.isSome = true ∧
    (handlePlayerTimeout roomC5 1).2 =
      some { winner := playerC5t2.playerNumber, winnerName := playerC5t2.nickname,
             winningGuess := "ชนะเนื่องจากอีกฝ่ายหลุดการเชื่อมต่อ",
             reason := "opponent_timeout", history := roomC5.gameState.history } :=
  (C5_timeout_forfeit roomC5 1).2 "t2" playerC5t2 rfl rfl

def roomC6 : Room :=
  { code := "ROOMC6",
    players := [
      ("g1", { id := "g1", playerNumber := 1, nickname := "ผู้เล่น 1",
               ready := true, connected := true }),
      ("g2", { id := "g2", playerNumber := 2, nickname := "ผู้เล่น 2",
               ready := true, connected := true })],
    gameState := { started := true, currentPlayer := 1,
                   secrets := [("g1", "1234"), ("g2", "5678")], history := [] },
    createdAt := 0 }

/-- Claim C6 counterexample: the game is started, socket "g2" holds seat 2
while it is seat 1's turn, and its guess "1123" is malformed; the claim
demands the StateError (wrong turn) for this call, but the handler validates
the guess before the turn check and reports the ValidationError. -/
theorem C6_counterexample :
    roomC6.gameState.started = true ∧
    (objGet roomC6.players "g2").map (fun p => p.playerNumber) = some 2 ∧
    roomC6.gameState.currentPlayer = 1 ∧
    validateNumber "1123" = false ∧
    makeGuess roomC6 "g2" "1123" 0 = (roomC6, .error .invalidNumber) := by
  refine ⟨rfl, rfl, rfl, rfl, rfl⟩

/-- Claim C6 (amended): `makeGuess` fails in source order — StateError when the
game has not started (whatever the guess looks like); then ValidationError
when the guess is not 4 distinct digits, even when it is also not the
caller's turn; then an unknown caller; then StateError when the caller's seat
is not `currentPlayer`; then NotFoundError when the opponent has no recorded
secret — and every failure returns the room completely unchanged. -/
theorem C6_makeGuess_errors (room : Room) (sid guess : String) (now : Nat) :
    (room.gameState.started = false →
       makeGuess room sid guess now = (room, .error .notStarted)) ∧
    (room.gameState.started = true → validateNumber guess = false →
       makeGuess room sid guess now = (room, .error .invalidNumber)) ∧
    (room.gameState.started = true → validateNumber guess = true →
       objGet room.players sid = none →
       makeGuess room sid guess now = (room, .error .playerNotFound)) ∧
    (∀ p, room.gameState.started = true → validateNumber guess = true →
       objGet room.players sid = some p →
       p.playerNumber ≠ room.gameState.currentPlayer →
       makeGuess room sid guess now = (room, .error .notYourTurn)) ∧
    (∀ p, room.gameState.started = true → validateNumber guess = true →
       objGet room.players sid = some p →
       p.playerNumber = room.gameState.currentPlayer →
       ((room.players.map (fun q => q.1)).find? (fun s2 => s2 != sid)).bind
           (fun s2 => objGet room.gameState.secrets s2) = none →
       makeGuess room sid guess now = (room, .error .noOpponentSecret)) := by
  refine ⟨?_, ?_, ?_, ?_, ?_⟩
  · intro h
    simp [makeGuess, h]
  · intro h hv
    simp [makeGuess, h, hv]
  · intro h hv hp
    simp [makeGuess, h, hv, hp]
  · intro p h hv hp ht
    simp [makeGuess, h, hv, hp, ht]
  · intro p h hv hp ht ho
    simp only [List.find?_map] at ho
    simp [makeGuess, h, hv, hp, ht, ho]

def roomC6w : Room :=
  { code := "ROOMCL",
    players := [
      ("g1", { id := "g1", playerNumber := 1, nickname := "ผู้เล่น 1",
               ready := false, connected := true }),
      ("g2", { id := "g2", playerNumber := 2, nickname := "ผู้เล่น 2",
               ready := false, connected := true })],
    gameState := { started := false, currentPlayer := 1, secrets := [], history := [] },
    createdAt := 0 }

/-- Witness for C6 (amended): in the lobby any guess is the not-started
StateError; in a started game a valid guess out of turn is the wrong-turn
StateError. -/
theorem C6_makeGuess_errors_witness :
    makeGuess roomC6w "g2" "1123" 0 = (roomC6w, .error .notStarted) ∧
    makeGuess roomC6 "g2" "0123" 0 = (roomC6, .error .notYourTurn) :=
  ⟨(C6_makeGuess_errors roomC6w "g2" "1123" 0).1 rfl,
   (C6_makeGuess_errors roomC6 "g2" "0123" 0).2.2.2.1
     { id := "g2", playerNumber := 2, nickname := "ผู้เล่น 2",
       ready := true, connected := true }
     rfl (by decide) rfl (by decide)⟩

/-- The history record an accepted guess appends (`historyItem` in the
`makeGuess` handler). -/
def guessRecord (p : Player) (guess oppSecret : String) (now : Nat) : HistoryItem :=
  { player := p.playerNumber, playerName := p.nickname, guess := guess,
    result := checkGuess guess oppSecret, isWin := (checkGuess guess oppSecret).1 == 4,
    timestamp := now }

/-- Claim C8: an accepted guess in a started game appends its record to the
history; when `correctPosition < 4` the handler toggles `currentPlayer`
(1 becomes 2 and 2 becomes 1), leaves the winner unset and broadcasts
`turnChange`; when `correctPosition = 4` it leaves `currentPlayer` unchanged,
records the guesser as winner with the winning guess, and broadcasts
`gameEnd` — the room is Finished. -/
theorem C8_guess_outcomes (room : Room) (sid guess oppSecret : String) (now : Nat) (p : Player)
    (hs : room.gameState.started = true)
    (hv : validateNumber guess = true)
    (hp : objGet room.players sid = some p)
    (ht : p.playerNumber = room.gameState.currentPlayer)
    (ho : ((room.players.map (fun q => q.1)).find? (fun s2 => s2 != sid)).bind
            (fun s2 => objGet room.gameState.secrets s2) = some oppSecret) :
    ((checkGuess guess oppSecret).1 ≠ 4 →
       (makeGuess room sid guess now).1.gameState.currentPlayer
           = (if room.gameState.currentPlayer = 1 then 2 else 1) ∧
       (makeGuess room sid guess now).1.gameState.winner = room.gameState.winner ∧
       (makeGuess room sid guess now).1.gameState.history
           = room.gameState.history ++ [guessRecord p guess oppSecret now] ∧
       (makeGuess room sid guess now).2 =
         .ok (checkGuess guess oppSecret, false,
           .turnChange (if room.gameState.currentPlayer = 1 then 2 else 1)
             (guessRecord p guess oppSecret now)
             (room.gameState.history ++ [guessRecord p guess oppSecret now]))) ∧
    ((checkGuess guess oppSecret).1 = 4 →
       (makeGuess room sid guess now).1.gameState.currentPlayer
           = room.gameState.currentPlayer ∧
       (makeGuess room sid guess now).1.gameState.winner = some p.playerNumber ∧
       (makeGuess room sid guess now).1.gameState.winningGuess = some guess ∧
       (makeGuess room sid guess now).1.gameState.history
           = room.gameState.history ++ [guessRecord p guess oppSecret now] ∧
       (makeGuess room sid guess now).2 =
         .ok (checkGuess guess oppSecret, true,
           .gameEnd p.playerNumber p.nickname guess
             (room.gameState.history ++ [guessRecord p guess oppSecret now]))) := by
  simp only [List.find?_map] at ho
  refine ⟨fun h4 => ?_, fun h4 => ?_⟩ <;>
    simp [makeGuess, guessRecord, hs, hv, hp, ht, ho, h4]

def pC8 : Player :=
  { id := "g1", playerNumber := 1, nickname := "ผู้เล่น 1", ready := true, connected := true }

def roomC8 : Room :=
  { code := "ROOMC8",
    players := [
      ("g1", pC8),
      ("g2", { id := "g2", playerNumber := 2, nickname := "ผู้เล่น 2",
               ready := true, connected := true })],
    gameState := { started := true, currentPlayer := 1,
                   secrets := [("g1", "1234"), ("g2", "5678")], history := [] },
    createdAt := 0 }

/-- Witness for C8: in `roomC8` the non-winning guess "4321" toggles the turn
to seat 2; the winning guess "5678" freezes the turn and finishes the game. -/
theorem C8_guess_outcomes_witness :
    (makeGuess roomC8 "g1" "4321" 9).1.gameState.currentPlayer = 2 ∧
    (makeGuess roomC8 "g1" "4321" 9).2 =
      .ok (checkGuess "4321" "5678", false,
        .turnChange 2 (guessRecord pC8 "4321" "5678" 9)
          (roomC8.gameState.history ++ [guessRecord pC8 "4321" "5678" 9])) ∧
    (makeGuess roomC8 "g1" "5678" 9).1.gameState.currentPlayer = 1 ∧
    (makeGuess roomC8 "g1" "5678" 9).1.gameState.winner = some 1 ∧
    (makeGuess roomC8 "g1" "5678" 9).2 =
      .ok (checkGuess "5678" "5678", true,
        .gameEnd 1 "ผู้เล่น 1" "5678"
          (roomC8.gameState.history ++ [guessRecord pC8 "5678" "5678" 9])) := by
  have h1 := (C8_guess_outcomes roomC8 "g1" "4321" "5678" 9 pC8
    rfl (by decide) rfl rfl rfl).1 (by decide)
  have h2 := (C8_guess_outcomes roomC8 "g1" "5678" "5678" 9 pC8
    rfl (by decide) rfl rfl rfl).2 (by decide)
  exact ⟨h1.1, h1.2.2.2, h2.1, h2.2.1, h2.2.2.2.2⟩
